import Mathlib

/- Verification development for the OnnxTensorflowExport notebook, the single
   source file of the repository. The notebook sequences calls into external
   libraries; the embedding below has two layers. A syntactic layer transcribes
   the code cells into a small statement language together with an executable
   semantics that is parameterized by an oracle standing for the external
   libraries, and a functional layer models the numpy and protobuf operations
   the inference cell performs. Recorded cell outputs are part of the source
   notebook and are transcribed verbatim. -/

namespace NbModel

/- ===================== Functional model: arrays ===================== -/

/-- A numeric multi dimensional array: the shape together with the flattened
row major contents. Numeric entries are modelled as integers; only order
comparisons matter for the argmax claim. -/
structure NDArray (alpha : Type) where
  shape : List Nat
  data : List alpha
deriving DecidableEq

/-- Product of a shape, the total element count it describes. -/
def listProd (l : List Nat) : Nat := l.foldr (fun a b => a * b) 1

/-- Model of the numpy ndarray reshape method: it succeeds exactly when the
requested shape describes as many elements as the array holds, returning the
same data under the new shape; otherwise numpy raises, modelled by none. -/
def np_reshape {alpha : Type} (a : NDArray alpha) (ns : List Nat) : Option (NDArray alpha) :=
  if listProd ns = a.data.length then some (NDArray.mk ns a.data) else none

/-- Index of the first maximum of a list, given the next index and the best
index and value so far. -/
def argmaxGo : List Int → Nat → Nat → Int → Nat
  | [], _, bi, _ => bi
  | x :: xs, i, bi, bv =>
    if bv < x then argmaxGo xs (i + 1) i x else argmaxGo xs (i + 1) bi bv

/-- Model of np.argmax on the flattened contents: the index of the first
maximal element; none on an empty array, where numpy raises. -/
def np_argmax (a : NDArray Int) : Option Nat :=
  match a.data with
  | [] => none
  | x :: xs => some (argmaxGo xs 1 0 x)

/-- The inference steps of the last code cell after the image is loaded:
reshape the loaded image to [1, 784], hand the result to the backend run
call, and print the argmax of the output with the python 2 print statement,
which separates its two items by one space. The backend itself is external
and is passed in as a function; a none result models an uncaught exception
before the print is reached. -/
def cell5Output (img : NDArray Int) (backendRun : NDArray Int → NDArray Int) : Option String :=
  (np_reshape img [1, 784]).bind (fun x =>
    (np_argmax (backendRun x)).map (fun d =>
      "The digit is classified as " ++ " " ++ toString d ++ "\n"))

/-- The stdout recorded in the notebook for the inference cell, transcribed
verbatim from the source file. -/
def cell5RecordedStdout : String := "The digit is classified as  7\n"

/-- Modelled from the spec: the sample image stored in the repository asset
image.npz is not under src. The notebook code depends only on its element
count of 784, so the modelled sample is a 784 entry array. -/
def sampleImage : NDArray Int := NDArray.mk [784] (List.replicate 784 0)

/-- Modelled from the spec: the backend and converted model are external, and
the spec together with the recorded cell output state that inference on the
sample yields the label 7. The modelled backend response is a ten entry score
vector whose unique maximum sits at index 7. -/
def sampleRun : NDArray Int → NDArray Int :=
  fun _ => NDArray.mk [1, 10] [0, 0, 0, 0, 0, 0, 0, 1, 0, 0]

/-- An array with an element count different from 784, used to exercise the
failing branch of the reshape. -/
def badImage : NDArray Int := NDArray.mk [3] [0, 0, 0]

/- ===================== Functional model: protobuf ===================== -/

/-- The fields of an ONNX graph node that the sanity check cell prints. -/
structure NodeProto where
  input : List String
  output : List String
  op_type : String
deriving DecidableEq

/-- An ONNX graph: its list of nodes. -/
structure GraphProto where
  node : List NodeProto
deriving DecidableEq

/-- An ONNX model: its graph. -/
structure ModelProto where
  graph : GraphProto
deriving DecidableEq

/-- Protobuf text rendering of a node, line by line, as the notebook shows it:
one line per input, one per output, then the op_type line. -/
def nodeProtoLines (n : NodeProto) : List String :=
  n.input.map (fun s => "input: \"" ++ s ++ "\"") ++
  n.output.map (fun s => "output: \"" ++ s ++ "\"") ++
  ["op_type: \"" ++ n.op_type ++ "\""]

/-- The lines of the stdout recorded in the notebook for the sanity check
cell, transcribed verbatim from the source file. -/
def cell2RecordedLines : List String :=
  ["input: \"Placeholder\"",
   "input: \"reshape/Reshape/shape\"",
   "output: \"reshape/Reshape\"",
   "op_type: \"Reshape\""]

/-- The raw stdout recorded in the notebook for the sanity check cell. -/
def cell2RecordedStdout : String :=
  "input: \"Placeholder\"\ninput: \"reshape/Reshape/shape\"\noutput: \"reshape/Reshape\"\nop_type: \"Reshape\"\n\n"

/-- The node shown by the recorded output of the sanity check cell. -/
def recordedFirstNode : NodeProto :=
  NodeProto.mk ["Placeholder", "reshape/Reshape/shape"] ["reshape/Reshape"] "Reshape"

/-- A model whose graph holds exactly the recorded first node. -/
def recordedModel : ModelProto := ModelProto.mk (GraphProto.mk [recordedFirstNode])

/-- Last element of a list, if any. -/
def lastElem {alpha : Type} : List alpha → Option alpha
  | [] => none
  | [a] => some a
  | _ :: b :: t => lastElem (b :: t)

/- ===================== Functional model: file round trip ===================== -/

/-- The external protobuf serialization interface used by the conversion cell
and the inference cell: SerializeToString and the parser inside onnx.load. -/
structure ProtoCodec where
  ser : ModelProto → List Nat
  par : List Nat → Option ModelProto

/-- Writing a byte file: the newest entry for a path shadows older ones. -/
def fsWrite (fs : List (String × List Nat)) (p : String) (bs : List Nat) :
    List (String × List Nat) :=
  (p, bs) :: fs

/-- Reading a byte file by path. -/
def fsRead (fs : List (String × List Nat)) (p : String) : Option (List Nat) :=
  List.lookup p fs

/-- Effect of the conversion cell on the file store: it writes exactly the
serialization of the converted model to the path mnist.onnx. -/
def cell1Save (c : ProtoCodec) (m : ModelProto) (fs : List (String × List Nat)) :
    List (String × List Nat) :=
  fsWrite fs "mnist.onnx" (c.ser m)

/-- The load step of the inference cell: read the file at the path mnist.onnx
and parse it back into a model. -/
def cell5Load (c : ProtoCodec) (fs : List (String × List Nat)) : Option ModelProto :=
  (fsRead fs "mnist.onnx").bind c.par

/-- A trivial concrete codec for one fixed model, used as a witness codec. -/
def m0 : ModelProto := recordedModel

/-- Witness codec whose parser returns the fixed model m0. -/
def c0 : ProtoCodec := ProtoCodec.mk (fun _ => [1]) (fun _ => some m0)

/- ===================== Freeze command (markdown cell) ===================== -/

/-- The argument list of the freeze_graph invocation shown in the markdown
cell of the notebook, transcribed verbatim. -/
def freezeGraphArgs : List String :=
  ["--input_graph=/home/mnist-tf/graph.proto",
   "--input_checkpoint=/home/mnist-tf/ckpt/model.ckpt",
   "--output_graph=/tmp/frozen_graph.pb",
   "--output_node_names=fc2/add",
   "--input_binary=True"]

/-- Strip a leading character sequence; none when it does not lead. -/
def eatChars : List Char → List Char → Option (List Char)
  | [], rest => some rest
  | _ :: _, [] => none
  | c :: cs, d :: ds => if c = d then eatChars cs ds else none

/-- The value given to a command line flag, located by its leading text. -/
def flagValue (flag : List Char) (args : List String) : Option String :=
  args.findSome? (fun a => (eatChars flag a.data).map (fun r => String.mk r))

/-- The leading text of the output node names flag. -/
def outputNodeFlag : List Char := ("--output_node_names=").data

/- ===================== Syntactic layer: expressions ===================== -/

/-- Values of the notebook execution model. Objects returned by external
library calls are vobj values tagged with the call that produced them. -/
inductive Value where
  | vnone
  | vint (n : Int)
  | vstr (s : String)
  | vbytes (bs : List Nat)
  | vhandle (path : String)
  | vlist2 (a b : Value)
  | vobj (tag : String) (payload : List Value)

/-- Record of one external library call made during execution. -/
structure CallEv where
  fn : String
  args : List Value
  kwargs : List (String × Value)

/-- Execution state: the variable environment of the notebook session, the
byte file store, the open file handles, the trace of external calls, and the
printed output. -/
structure PyState where
  env : List (String × Value)
  fs : List (String × Value)
  openFiles : List String
  trace : List CallEv
  out : String

/-- The external libraries, as an oracle: module level calls, method calls on
library objects, attribute access and indexing. Each may raise, modelled by
an error result carrying the exception text. -/
structure LibOracle where
  callO : String → List Value → List (String × Value) → Except String Value
  methodO : Value → String → List Value → Except String Value
  attrO : Value → String → Except String Value
  indexO : Value → Value → Except String Value

/-- Python expressions of the notebook cells. Call arities are the fixed
arities that occur in the source; call2kw is a call with two positional
arguments and one keyword argument. The ebinop constructor expresses
arithmetic the repository could have added but does not. -/
inductive Expr where
  | evar (x : String)
  | estr (s : String)
  | eint (n : Int)
  | elist2 (a b : Expr)
  | ebinop (op : String) (a b : Expr)
  | eattr (r : Expr) (a : String)
  | eindex (r : Expr) (i : Expr)
  | call0 (fn : String)
  | call1 (fn : String) (a : Expr)
  | call2 (fn : String) (a b : Expr)
  | call2kw (fn : String) (a b : Expr) (k : String) (kv : Expr)
  | method0 (r : Expr) (m : String)
  | method1 (r : Expr) (m : String) (a : Expr)

/-- Python statements of the notebook cells. The ifElse, tryExcept,
globalDecl and defFun constructors express constructs the repository could
have used but does not. -/
inductive Stmt where
  | skip
  | seqc (a b : Stmt)
  | imp (m : String)
  | impFrom (m f : String)
  | assign (x : String) (e : Expr)
  | exprStmt (e : Expr)
  | withOpen (ctx : Expr) (x : String) (body : Stmt)
  | print1 (e : Expr)
  | print2 (a b : Expr)
  | ifElse (c : Expr) (t f : Stmt)
  | tryExcept (body handler : Stmt)
  | globalDecl (x : String)
  | defFun (f : String) (body : Stmt)

/- ===================== Syntactic layer: semantics ===================== -/

/-- Rendering of a value by the python 2 print statement. -/
def pyStr : Value → String
  | .vnone => "None"
  | .vint n => toString n
  | .vstr s => s
  | .vbytes _ => "<bytes>"
  | .vhandle p => "<file " ++ p ++ ">"
  | .vlist2 a b => "[" ++ pyStr a ++ ", " ++ pyStr b ++ "]"
  | .vobj t _ => "<" ++ t ++ ">"

/-- Python truthiness of a value. -/
def truthy : Value → Bool
  | .vnone => false
  | .vint n => n != 0
  | .vstr s => s != ""
  | .vbytes bs => !bs.isEmpty
  | .vhandle _ => true
  | .vlist2 _ _ => true
  | .vobj _ _ => true

/-- Dispatch a module level call to the oracle, recording it in the trace. -/
def oracleCall (O : LibOracle) (fn : String) (args : List Value)
    (kws : List (String × Value)) (st : PyState) : Except String (Value × PyState) :=
  match O.callO fn args kws with
  | .ok v => .ok (v, { st with trace := st.trace ++ [CallEv.mk fn args kws] })
  | .error err => .error err

/-- Dispatch a method call on a library object to the oracle, recording it in
the trace with the receiver as first argument. -/
def oracleMethod (O : LibOracle) (recv : Value) (m : String) (args : List Value)
    (st : PyState) : Except String (Value × PyState) :=
  match O.methodO recv m args with
  | .ok v => .ok (v, { st with trace := st.trace ++ [CallEv.mk m (recv :: args) []] })
  | .error err => .error err

/-- Native semantics of opening a file: a fresh handle on the given path. -/
def openFile (v : Value) (st : PyState) : Except String (Value × PyState) :=
  match v with
  | .vstr p => .ok (.vhandle p, { st with openFiles := p :: st.openFiles })
  | _ => .error "TypeError: invalid file path"

/-- Native semantics of the nullary file handle methods read and close. -/
def fileOp0 (p : String) (m : String) (st : PyState) : Except String (Value × PyState) :=
  if m = "close" then .ok (.vnone, { st with openFiles := st.openFiles.erase p })
  else if m = "read" then
    if st.openFiles.contains p then
      match List.lookup p st.fs with
      | some v => .ok (v, st)
      | none => .error ("IOError: " ++ p)
    else .error "ValueError: read on closed file"
  else .error ("AttributeError: " ++ m)

/-- Native semantics of the unary file handle method write. -/
def fileOp1 (p : String) (m : String) (v : Value) (st : PyState) :
    Except String (Value × PyState) :=
  if m = "write" then
    if st.openFiles.contains p then .ok (.vnone, { st with fs := (p, v) :: st.fs })
    else .error "ValueError: write on closed file"
  else .error ("AttributeError: " ++ m)

/-- Semantics of the binary operators the language could express; the
notebook never uses them. -/
def binopApply (op : String) (va vb : Value) (st : PyState) :
    Except String (Value × PyState) :=
  match op, va, vb with
  | "+", .vint x, .vint y => .ok (.vint (x + y), st)
  | "-", .vint x, .vint y => .ok (.vint (x - y), st)
  | "*", .vint x, .vint y => .ok (.vint (x * y), st)
  | _, _, _ => .error "TypeError: unsupported operand"

/-- Indexing: native on the two element list value, via the oracle on library
objects. -/
def indexApply (O : LibOracle) (vr vi : Value) (st : PyState) :
    Except String (Value × PyState) :=
  match vr, vi with
  | .vlist2 a _, .vint 0 => .ok (a, st)
  | .vlist2 _ b, .vint 1 => .ok (b, st)
  | .vlist2 _ _, _ => .error "IndexError"
  | _, _ =>
    match O.indexO vr vi with
    | .ok v => .ok (v, st)
    | .error err => .error err

/-- Expression evaluation. Receivers are evaluated before arguments, as in
python. File handle methods are native; every other call goes to the oracle
and any oracle error is returned as is. -/
def evalE (O : LibOracle) : Expr → PyState → Except String (Value × PyState)
  | .evar x, st =>
    (match List.lookup x st.env with
     | some v => .ok (v, st)
     | none => .error ("NameError: name " ++ x))
  | .estr s, st => .ok (.vstr s, st)
  | .eint n, st => .ok (.vint n, st)
  | .elist2 a b, st =>
    (match evalE O a st with
     | .error err => .error err
     | .ok (va, st1) =>
       match evalE O b st1 with
       | .error err => .error err
       | .ok (vb, st2) => .ok (.vlist2 va vb, st2))
  | .ebinop op a b, st =>
    (match evalE O a st with
     | .error err => .error err
     | .ok (va, st1) =>
       match evalE O b st1 with
       | .error err => .error err
       | .ok (vb, st2) => binopApply op va vb st2)
  | .eattr r a, st =>
    (match evalE O r st with
     | .error err => .error err
     | .ok (vr, st1) =>
       match O.attrO vr a with
       | .ok v => .ok (v, st1)
       | .error err => .error err)
  | .eindex r i, st =>
    (match evalE O r st with
     | .error err => .error err
     | .ok (vr, st1) =>
       match evalE O i st1 with
       | .error err => .error err
       | .ok (vi, st2) => indexApply O vr vi st2)
  | .call0 fn, st => oracleCall O fn [] [] st
  | .call1 fn a, st =>
    (match evalE O a st with
     | .error err => .error err
     | .ok (va, st1) => oracleCall O fn [va] [] st1)
  | .call2 fn a b, st =>
    (match evalE O a st with
     | .error err => .error err
     | .ok (va, st1) =>
       match evalE O b st1 with
       | .error err => .error err
       | .ok (vb, st2) =>
         if fn = "open" ∨ fn = "tf.gfile.GFile" then openFile va st2
         else oracleCall O fn [va, vb] [] st2)
  | .call2kw fn a b k kv, st =>
    (match evalE O a st with
     | .error err => .error err
     | .ok (va, st1) =>
       match evalE O b st1 with
       | .error err => .error err
       | .ok (vb, st2) =>
         match evalE O kv st2 with
         | .error err => .error err
         | .ok (vkv, st3) => oracleCall O fn [va, vb] [(k, vkv)] st3)
  | .method0 r m, st =>
    (match evalE O r st with
     | .error err => .error err
     | .ok (vr, st1) =>
       match vr with
       | .vhandle p => fileOp0 p m st1
       | _ => oracleMethod O vr m [] st1)
  | .method1 r m a, st =>
    (match evalE O r st with
     | .error err => .error err
     | .ok (vr, st1) =>
       match evalE O a st1 with
       | .error err => .error err
       | .ok (va, st2) =>
         match vr with
         | .vhandle p => fileOp1 p m va st2
         | _ => oracleMethod O vr m [va] st2)

/-- A protobuf style method call statement mutates its receiver in place; the
model rebinds the receiver variable to the oracle result. File handles are
not rebound, their methods being native effects. -/
def mutateRebind (e : Expr) (v : Value) (stOrig stNew : PyState) : PyState :=
  match e with
  | .method0 (.evar x) _ => rebindIfObj x v stOrig stNew
  | .method1 (.evar x) _ _ => rebindIfObj x v stOrig stNew
  | _ => stNew
where
  rebindIfObj (x : String) (v : Value) (stOrig stNew : PyState) : PyState :=
    match List.lookup x stOrig.env with
    | some (.vhandle _) => stNew
    | _ => { stNew with env := (x, v) :: stNew.env }

/-- Statement execution. An error result is an exception that left the
statement uncaught; only tryExcept stops one. The with statement closes its
handle when the body completes. -/
def exec (O : LibOracle) : Stmt → PyState → Except String PyState
  | .skip, st => .ok st
  | .seqc a b, st =>
    (match exec O a st with
     | .error err => .error err
     | .ok st1 => exec O b st1)
  | .imp _, st => .ok st
  | .impFrom _ _, st => .ok st
  | .assign x e, st =>
    (match evalE O e st with
     | .error err => .error err
     | .ok (v, st1) => .ok { st1 with env := (x, v) :: st1.env })
  | .exprStmt e, st =>
    (match evalE O e st with
     | .error err => .error err
     | .ok (v, st1) => .ok (mutateRebind e v st st1))
  | .withOpen ctx x body, st =>
    (match evalE O ctx st with
     | .error err => .error err
     | .ok (v, st1) =>
       match v with
       | .vhandle p =>
         (match exec O body { st1 with env := (x, v) :: st1.env } with
          | .error err => .error err
          | .ok st2 => .ok { st2 with openFiles := st2.openFiles.erase p })
       | _ => .error "TypeError: context manager")
  | .print1 e, st =>
    (match evalE O e st with
     | .error err => .error err
     | .ok (v, st1) => .ok { st1 with out := st1.out ++ pyStr v ++ "\n" })
  | .print2 a b, st =>
    (match evalE O a st with
     | .error err => .error err
     | .ok (va, st1) =>
       match evalE O b st1 with
       | .error err => .error err
       | .ok (vb, st2) =>
         .ok { st2 with out := st2.out ++ pyStr va ++ " " ++ pyStr vb ++ "\n" })
  | .ifElse c t f, st =>
    (match evalE O c st with
     | .error err => .error err
     | .ok (v, st1) => if truthy v then exec O t st1 else exec O f st1)
  | .tryExcept body handler, st =>
    (match exec O body st with
     | .ok st1 => .ok st1
     | .error _ => exec O handler st)
  | .globalDecl _, st => .ok st
  | .defFun f _, st => .ok { st with env := (f, .vobj "function" []) :: st.env }

/- ===================== The notebook cells, transcribed ===================== -/

/-- The conversion call of the first code cell: it receives the parsed graph,
the output node name, and the keyword argument opset with value 6. -/
def conversionCall : Expr :=
  Expr.call2kw "tensorflow_graph_to_onnx_model"
    (Expr.evar "graph_def") (Expr.estr "fc2/add") "opset" (Expr.eint 6)

/-- The first code cell of the notebook: parse the frozen graph inside a with
block, convert it, and write the serialized result to mnist.onnx, closing the
output handle explicitly. -/
def cell1 : Stmt :=
  Stmt.seqc (Stmt.imp "tensorflow")
  (Stmt.seqc (Stmt.impFrom "onnx_tf.frontend" "tensorflow_graph_to_onnx_model")
  (Stmt.withOpen (Expr.call2 "tf.gfile.GFile" (Expr.estr "frozen_graph.pb") (Expr.estr "rb")) "f"
    (Stmt.seqc (Stmt.assign "graph_def" (Expr.call0 "tf.GraphDef"))
    (Stmt.seqc (Stmt.exprStmt (Expr.method1 (Expr.evar "graph_def") "ParseFromString"
        (Expr.method0 (Expr.evar "f") "read")))
    (Stmt.seqc (Stmt.assign "onnx_model" conversionCall)
    (Stmt.seqc (Stmt.assign "file" (Expr.call2 "open" (Expr.estr "mnist.onnx") (Expr.estr "wb")))
    (Stmt.seqc (Stmt.exprStmt (Expr.method1 (Expr.evar "file") "write"
        (Expr.method0 (Expr.evar "onnx_model") "SerializeToString")))
    (Stmt.exprStmt (Expr.method0 (Expr.evar "file") "close")))))))))

/-- The sanity check cell: print the first node of the converted model. -/
def cell2 : Stmt :=
  Stmt.print1 (Expr.eindex (Expr.eattr (Expr.eattr (Expr.evar "onnx_model") "graph") "node")
    (Expr.eint 0))

/-- The inference cell: load the exported model, prepare the backend, load
the image, run the backend on the image reshaped to [1, 784], and print the
argmax of the output. -/
def cell5 : Stmt :=
  Stmt.seqc (Stmt.imp "onnx")
  (Stmt.seqc (Stmt.imp "numpy")
  (Stmt.seqc (Stmt.impFrom "onnx_tf.backend" "prepare")
  (Stmt.seqc (Stmt.assign "model" (Expr.call1 "onnx.load" (Expr.estr "mnist.onnx")))
  (Stmt.seqc (Stmt.assign "tf_rep" (Expr.call1 "prepare" (Expr.evar "model")))
  (Stmt.seqc (Stmt.assign "img" (Expr.call1 "np.load" (Expr.estr "./assets/image.npz")))
  (Stmt.seqc (Stmt.assign "output" (Expr.method1 (Expr.evar "tf_rep") "run"
      (Expr.method1 (Expr.evar "img") "reshape" (Expr.elist2 (Expr.eint 1) (Expr.eint 784)))))
  (Stmt.print2 (Expr.estr "The digit is classified as ")
      (Expr.call1 "np.argmax" (Expr.evar "output")))))))))

/-- The whole notebook session, the three code cells in order. -/
def notebookProgram : Stmt := Stmt.seqc cell1 (Stmt.seqc cell2 cell5)

/-- An echo oracle: every library call succeeds and returns an object tagged
with the call that produced it, so the shape of every result records the data
flow of the notebook. -/
def O0 : LibOracle :=
  { callO := fun f args kws => .ok (.vobj f (args ++ kws.map (fun kv => kv.2))),
    methodO := fun r m args => .ok (.vobj m (r :: args)),
    attrO := fun r a => .ok (.vobj a [r]),
    indexO := fun r i => .ok (.vobj "item" [r, i]) }

/-- The echo oracle with one named call or method made to raise the given
exception text, all other calls behaving as in the echo oracle. -/
def failAt (nm e : String) : LibOracle :=
  { callO := fun f args kws => if f = nm then .error e else O0.callO f args kws,
    methodO := fun r m args => if m = nm then .error e else O0.methodO r m args,
    attrO := O0.attrO,
    indexO := O0.indexO }

/-- Initial state of the session: an empty environment and a file store
holding the frozen graph artifact with arbitrary contents bs. -/
def st0 (bs : List Nat) : PyState :=
  { env := [], fs := [("frozen_graph.pb", Value.vbytes bs)],
    openFiles := [], trace := [], out := "" }

/-- The value bound to graph_def after ParseFromString, under the echo
oracle: the parse of the bytes read from frozen_graph.pb. -/
def parsedGraphVal (bs : List Nat) : Value :=
  Value.vobj "ParseFromString" [Value.vobj "tf.GraphDef" [], Value.vbytes bs]

/-- The converted model value under the echo oracle: the conversion call
applied to the parsed graph, the node name, and the opset number. -/
def convertedVal (bs : List Nat) : Value :=
  Value.vobj "tensorflow_graph_to_onnx_model"
    [parsedGraphVal bs, Value.vstr "fc2/add", Value.vint 6]

/-- The serialized model value written to mnist.onnx under the echo oracle. -/
def serializedVal (bs : List Nat) : Value :=
  Value.vobj "SerializeToString" [convertedVal bs]

/- ===================== Syntactic predicates ===================== -/

/-- Whether an expression contains an arithmetic operator anywhere. -/
def exprHasBinop : Expr → Bool
  | .ebinop _ _ _ => true
  | .elist2 a b => exprHasBinop a || exprHasBinop b
  | .eattr r _ => exprHasBinop r
  | .eindex r i => exprHasBinop r || exprHasBinop i
  | .call1 _ a => exprHasBinop a
  | .call2 _ a b => exprHasBinop a || exprHasBinop b
  | .call2kw _ a b _ kv => exprHasBinop a || exprHasBinop b || exprHasBinop kv
  | .method0 r _ => exprHasBinop r
  | .method1 r _ a => exprHasBinop r || exprHasBinop a
  | _ => false

/-- An argument handed to a library call unmodified: a variable, a literal,
a list of such, an attribute chain, or a further library call; never an
arithmetic combination. -/
def exprDirectArg : Expr → Bool
  | .evar _ => true
  | .estr _ => true
  | .eint _ => true
  | .elist2 a b => exprDirectArg a && exprDirectArg b
  | .ebinop _ _ _ => false
  | .eattr r _ => exprDirectArg r
  | .eindex r i => exprDirectArg r && exprDirectArg i
  | .call0 _ => true
  | .call1 _ a => exprDirectArg a
  | .call2 _ a b => exprDirectArg a && exprDirectArg b
  | .call2kw _ a b _ kv => exprDirectArg a && exprDirectArg b && exprDirectArg kv
  | .method0 r _ => exprDirectArg r
  | .method1 r _ a => exprDirectArg r && exprDirectArg a

/-- A direct library call whose arguments are all handed over unmodified. -/
def exprIsLibCall : Expr → Bool
  | .call0 _ => true
  | .call1 _ a => exprDirectArg a
  | .call2 _ a b => exprDirectArg a && exprDirectArg b
  | .call2kw _ a b _ kv => exprDirectArg a && exprDirectArg b && exprDirectArg kv
  | .method0 r _ => exprDirectArg r
  | .method1 r _ a => exprDirectArg r && exprDirectArg a
  | _ => false

/-- Every step is an import, a direct library call, an assignment of the
result of one, a with block over one, or a print of unmodified values; no
branching, no exception handling, no function or global declarations. -/
def stepsDirect : Stmt → Bool
  | .skip => true
  | .seqc a b => stepsDirect a && stepsDirect b
  | .imp _ => true
  | .impFrom _ _ => true
  | .assign _ e => exprIsLibCall e
  | .exprStmt e => exprIsLibCall e
  | .withOpen ctx _ body => exprIsLibCall ctx && stepsDirect body
  | .print1 e => exprDirectArg e
  | .print2 a b => exprDirectArg a && exprDirectArg b
  | .ifElse _ _ _ => false
  | .tryExcept _ _ => false
  | .globalDecl _ => false
  | .defFun _ _ => false

/-- Whether a statement contains a try and except construct anywhere. -/
def stmtHasTry : Stmt → Bool
  | .tryExcept _ _ => true
  | .seqc a b => stmtHasTry a || stmtHasTry b
  | .withOpen _ _ body => stmtHasTry body
  | .ifElse _ t f => stmtHasTry t || stmtHasTry f
  | .defFun _ body => stmtHasTry body
  | _ => false

/-- Whether a statement contains a conditional branch anywhere. -/
def stmtHasBranch : Stmt → Bool
  | .ifElse _ _ _ => true
  | .seqc a b => stmtHasBranch a || stmtHasBranch b
  | .withOpen _ _ body => stmtHasBranch body
  | .tryExcept body handler => stmtHasBranch body || stmtHasBranch handler
  | .defFun _ body => stmtHasBranch body
  | _ => false

/-- Whether a statement contains a global declaration anywhere. -/
def stmtHasGlobal : Stmt → Bool
  | .globalDecl _ => true
  | .seqc a b => stmtHasGlobal a || stmtHasGlobal b
  | .withOpen _ _ body => stmtHasGlobal body
  | .ifElse _ t f => stmtHasGlobal t || stmtHasGlobal f
  | .tryExcept body handler => stmtHasGlobal body || stmtHasGlobal handler
  | .defFun _ body => stmtHasGlobal body
  | _ => false

/-- Whether a statement contains a function definition anywhere. -/
def stmtHasDefFun : Stmt → Bool
  | .defFun _ _ => true
  | .seqc a b => stmtHasDefFun a || stmtHasDefFun b
  | .withOpen _ _ body => stmtHasDefFun body
  | .ifElse _ t f => stmtHasDefFun t || stmtHasDefFun f
  | .tryExcept body handler => stmtHasDefFun body || stmtHasDefFun handler
  | _ => false

/-- The expression assigned to a given variable name, if the statement
assigns it. -/
def assignedExprOf (x : String) : Stmt → Option Expr
  | .assign y e => if y = x then some e else none
  | .seqc a b =>
    (match assignedExprOf x a with
     | some e => some e
     | none => assignedExprOf x b)
  | .withOpen _ _ body => assignedExprOf x body
  | .ifElse _ t f =>
    (match assignedExprOf x t with
     | some e => some e
     | none => assignedExprOf x f)
  | .tryExcept body handler =>
    (match assignedExprOf x body with
     | some e => some e
     | none => assignedExprOf x handler)
  | _ => none

/-- The output node name positional argument of a conversion call shape. -/
def convNodeNameArg : Expr → Option String
  | .call2 _ _ (.estr s) => some s
  | .call2kw _ _ (.estr s) _ _ => some s
  | _ => none

/-- The library calls the first code cell makes through the oracle. -/
def cell1LibCalls : List String :=
  ["tf.GraphDef", "ParseFromString", "tensorflow_graph_to_onnx_model", "SerializeToString"]

/-- The library calls the inference cell makes through the oracle. -/
def cell5LibCalls : List String :=
  ["onnx.load", "prepare", "np.load", "reshape", "run", "np.argmax"]

/- ===================== Helper lemmas ===================== -/

/-- The last element of a list with an appended singleton. -/
theorem lastElem_concat {alpha : Type} : ∀ (l : List alpha) (a : alpha),
    lastElem (l ++ [a]) = some a := by
  intro l a
  induction l with
  | nil => rfl
  | cons x xs ih =>
    cases xs with
    | nil => rfl
    | cons y t => simpa [lastElem, List.cons_append] using ih

/-- String append acts as list append on the underlying characters. -/
theorem strData_append : ∀ (a b : String), (a ++ b).data = a.data ++ b.data
  | ⟨_⟩, ⟨_⟩ => rfl

/-- Strings with equal character lists are equal. -/
theorem strInj : ∀ (a b : String), a.data = b.data → a = b
  | ⟨_⟩, ⟨_⟩, h => congrArg String.mk h

/-- Cancel a common leading list of an equality of appends. -/
theorem listCancelL {alpha : Type} : ∀ (a b c : List alpha), a ++ b = a ++ c → b = c := by
  intro a
  induction a with
  | nil => intro b c h; exact h
  | cons x xs ih =>
    intro b c h
    apply ih
    injection h

/-- Cancel a common trailing list of an equality of appends. -/
theorem listCancelR {alpha : Type} (a b c : List alpha) (h : a ++ c = b ++ c) : a = b := by
  have hl : a.length = b.length := by
    have h2 := congrArg List.length h
    simp [List.length_append] at h2
    omega
  exact (List.append_inj h hl).1

/-- The transcribed line list of the sanity check output matches the raw
recorded stdout of that cell. -/
theorem cell2_record_coherent :
    String.intercalate "\n" cell2RecordedLines ++ "\n" ++ "\n" = cell2RecordedStdout := by
  decide

/- ===================== Claim theorems ===================== -/

/-- Claim C1: end to end inference result. If the loaded sample image has 784
entries and the backend output on the reshaped [1, 784] tensor has its first
maximum at index 7, then the inference cell prints exactly the recorded
classification line reporting the label 7. -/
theorem C1_inference_prints_seven (img : NDArray Int)
    (backendRun : NDArray Int → NDArray Int)
    (h1 : img.data.length = 784)
    (h2 : np_argmax (backendRun (NDArray.mk [1, 784] img.data)) = some 7) :
    cell5Output img backendRun = some cell5RecordedStdout := by
  have hr : np_reshape img [1, 784] = some (NDArray.mk [1, 784] img.data) := by
    unfold np_reshape
    rw [h1]
    exact if_pos rfl
  unfold cell5Output
  rw [hr]
  show (np_argmax (backendRun (NDArray.mk [1, 784] img.data))).map
      (fun d => "The digit is classified as " ++ " " ++ toString d ++ "\n") =
    some cell5RecordedStdout
  rw [h2]
  rfl

/-- Witness for C1 at the modelled sample image and backend response. -/
theorem C1_inference_prints_seven_witness :
    cell5Output sampleImage sampleRun = some cell5RecordedStdout :=
  C1_inference_prints_seven sampleImage sampleRun
    (by show (List.replicate 784 (0 : Int)).length = 784; rw [List.length_replicate])
    (by decide)

/-- Claim C2: first node sanity check. Any model whose first graph node
renders, line by line, as the output recorded for the sanity check cell has a
first node whose op_type is Reshape. -/
theorem C2_first_node_is_reshape (m : ModelProto) (n : NodeProto)
    (hfirst : m.graph.node.head? = some n)
    (hprint : nodeProtoLines n = cell2RecordedLines) :
    n.op_type = "Reshape" := by
  have hlast := congrArg lastElem hprint
  unfold nodeProtoLines at hlast
  rw [lastElem_concat] at hlast
  have hrec : lastElem cell2RecordedLines = some ("op_type: \"Reshape\"") := rfl
  rw [hrec] at hlast
  have hop : "op_type: \"" ++ n.op_type ++ "\"" = "op_type: \"Reshape\"" :=
    Option.some.inj hlast
  have hop2 : "op_type: \"" ++ n.op_type ++ "\"" = "op_type: \"" ++ "Reshape" ++ "\"" := by
    rw [hop]; decide
  have hd := congrArg String.data hop2
  simp only [strData_append] at hd
  rw [List.append_assoc, List.append_assoc] at hd
  have h5 := listCancelL _ _ _ hd
  have h6 := listCancelR _ _ _ h5
  exact strInj _ _ h6

/-- Witness for C2 at the recorded model and recorded first node. -/
theorem C2_first_node_is_reshape_witness :
    recordedModel.graph.node.head? = some recordedFirstNode ∧
    nodeProtoLines recordedFirstNode = cell2RecordedLines ∧
    recordedFirstNode.op_type = "Reshape" :=
  ⟨rfl, by decide, C2_first_node_is_reshape recordedModel recordedFirstNode rfl (by decide)⟩

/-- Claim C3: no repository added transformation. Every step of the notebook
is a direct call into a third party API with unmodified arguments, and the
notebook adds no error handling construct of its own. -/
theorem C3_no_repo_logic :
    stepsDirect notebookProgram = true ∧ stmtHasTry notebookProgram = false :=
  ⟨rfl, rfl⟩

/-- Claim C4: error propagation. The notebook contains no exception handler,
and for every library call site of the conversion cell and of the inference
cell, for every exception text, an oracle raising at that site makes the
whole cell evaluate to exactly that uncaught exception. -/
theorem C4_errors_propagate :
    stmtHasTry notebookProgram = false ∧
    (∀ (nm e : String) (bs : List Nat), nm ∈ cell1LibCalls →
      exec (failAt nm e) cell1 (st0 bs) = Except.error e) ∧
    (∀ (nm e : String) (bs : List Nat), nm ∈ cell5LibCalls →
      exec (failAt nm e) cell5 (st0 bs) = Except.error e) := by
  refine ⟨rfl, ?_, ?_⟩
  · intro nm e bs h
    fin_cases h <;> rfl
  · intro nm e bs h
    fin_cases h <;> rfl

/-- Witness for C4 at the conversion call and at the backend run call. -/
theorem C4_errors_propagate_witness :
    exec (failAt "tensorflow_graph_to_onnx_model" "malformed graph") cell1 (st0 [0]) =
      Except.error "malformed graph" ∧
    exec (failAt "run" "shape mismatch") cell5 (st0 [0]) =
      Except.error "shape mismatch" :=
  ⟨C4_errors_propagate.2.1 "tensorflow_graph_to_onnx_model" "malformed graph" [0] (by decide),
   C4_errors_propagate.2.2 "run" "shape mismatch" [0] (by decide)⟩

/-- Claim C5: conversion call interface. The conversion cell makes exactly
one conversion call; its recorded arguments are the parse of the bytes of
frozen_graph.pb, the output node name fc2/add, and the keyword argument
opset with value 6, and the syntax of the cell assigns that call to
onnx_model. -/
theorem C5_conversion_call_interface :
    (∀ bs : List Nat,
      Except.map (fun st => st.trace.filter (fun ev => ev.fn == "tensorflow_graph_to_onnx_model"))
        (exec O0 cell1 (st0 bs)) =
      Except.ok [CallEv.mk "tensorflow_graph_to_onnx_model"
        [parsedGraphVal bs, Value.vstr "fc2/add"] [("opset", Value.vint 6)]]) ∧
    assignedExprOf "onnx_model" cell1 = some conversionCall ∧
    conversionCall = Expr.call2kw "tensorflow_graph_to_onnx_model"
      (Expr.evar "graph_def") (Expr.estr "fc2/add") "opset" (Expr.eint 6) :=
  ⟨fun _ => rfl, rfl, rfl⟩

/-- Claim C6: serialize and deserialize round trip. The conversion cell
writes exactly the serialization of the converted model to mnist.onnx, the
inference cell loads from that same path, and when the parser inverts the
serializer on the converted model, the loaded model equals the converted
model. -/
theorem C6_serialize_roundtrip (c : ProtoCodec) (m : ModelProto)
    (fs : List (String × List Nat)) (bs : List Nat)
    (hinv : c.par (c.ser m) = some m) :
    fsRead (cell1Save c m fs) "mnist.onnx" = some (c.ser m) ∧
    cell5Load c (cell1Save c m fs) = some m ∧
    Except.map (fun st => List.lookup "mnist.onnx" st.fs) (exec O0 cell1 (st0 bs)) =
      Except.ok (some (serializedVal bs)) ∧
    Except.map (fun st => st.trace.filter (fun ev => ev.fn == "onnx.load"))
        (exec O0 cell5 (st0 bs)) =
      Except.ok [CallEv.mk "onnx.load" [Value.vstr "mnist.onnx"] []] := by
  refine ⟨rfl, ?_, rfl, rfl⟩
  simpa [cell5Load, cell1Save, fsWrite, fsRead] using hinv

/-- Witness for C6 at the witness codec and the recorded model. -/
theorem C6_serialize_roundtrip_witness :
    cell5Load c0 (cell1Save c0 m0 []) = some m0 :=
  (C6_serialize_roundtrip c0 m0 [] [0] rfl).2.1

/-- Claim C7: linear sequencing and statelessness. The notebook session has
no branch, no exception handler, no global declaration and no function
definition; it is a linear sequence of assignments of library results to
local variables. -/
theorem C7_linear_stateless :
    stmtHasBranch notebookProgram = false ∧
    stmtHasTry notebookProgram = false ∧
    stmtHasGlobal notebookProgram = false ∧
    stmtHasDefFun notebookProgram = false :=
  ⟨rfl, rfl, rfl, rfl⟩

/-- Claim C8: resource lifecycle. For every oracle whose calls all succeed
with library objects and every starting state holding the frozen graph file,
executing the conversion cell succeeds and leaves exactly the open handles it
started with: the with block closes the frozen graph handle and the explicit
close call closes the mnist.onnx handle, within the cell. -/
theorem C8_handles_closed (O : LibOracle) (st : PyState) (v0 : Value)
    (hfs : List.lookup "frozen_graph.pb" st.fs = some v0)
    (hc : ∀ (f : String) (a : List Value) (k : List (String × Value)),
      ∃ t p, O.callO f a k = Except.ok (Value.vobj t p))
    (hm : ∀ (r : Value) (m : String) (a : List Value),
      ∃ t p, O.methodO r m a = Except.ok (Value.vobj t p)) :
    Except.map PyState.openFiles (exec O cell1 st) = Except.ok st.openFiles := by
  obtain ⟨t1, p1, h1⟩ := hc "tf.GraphDef" [] []
  obtain ⟨t2, p2, h2⟩ := hm (Value.vobj t1 p1) "ParseFromString" [v0]
  obtain ⟨t3, p3, h3⟩ := hc "tensorflow_graph_to_onnx_model"
    [Value.vobj t2 p2, Value.vstr "fc2/add"] [("opset", Value.vint 6)]
  obtain ⟨t4, p4, h4⟩ := hm (Value.vobj t3 p3) "SerializeToString" []
  simp [cell1, conversionCall, exec, evalE, oracleCall, oracleMethod, openFile,
    fileOp0, fileOp1, mutateRebind, mutateRebind.rebindIfObj, h1, h2, h3, h4, hfs,
    List.lookup, List.erase, List.contains, List.elem, Except.map]

/-- Witness for C8 at the echo oracle and the initial session state. -/
theorem C8_handles_closed_witness :
    Except.map PyState.openFiles (exec O0 cell1 (st0 [0])) = Except.ok (st0 [0]).openFiles :=
  C8_handles_closed O0 (st0 [0]) (Value.vbytes [0]) rfl
    (fun f a k => ⟨f, a ++ k.map (fun kv => kv.2), rfl⟩)
    (fun r m a => ⟨m, r :: a, rfl⟩)

/-- Claim C9: input shape precondition at the inference interface. Every
loaded array with exactly 784 entries reshapes successfully to the rank two
tensor of shape [1, 784] that the backend run call receives, and for every
array with a different element count the inference cell result is none for
every backend function, so the reshape fails before the backend is called. -/
theorem C9_reshape_precondition :
    (∀ img : NDArray Int, img.data.length = 784 →
      np_reshape img [1, 784] = some (NDArray.mk [1, 784] img.data)) ∧
    (∀ (img : NDArray Int) (backendRun : NDArray Int → NDArray Int),
      img.data.length ≠ 784 → cell5Output img backendRun = none) := by
  have hp : listProd [1, 784] = 784 := by decide
  constructor
  · intro img h1
    unfold np_reshape
    rw [h1, hp, if_pos rfl]
  · intro img backendRun h1
    unfold cell5Output np_reshape
    rw [hp, if_neg (fun hc => h1 hc.symm)]
    rfl

/-- Witness for C9 at the modelled sample image and at a three entry array. -/
theorem C9_reshape_precondition_witness :
    np_reshape sampleImage [1, 784] = some (NDArray.mk [1, 784] sampleImage.data) ∧
    cell5Output badImage sampleRun = none :=
  ⟨C9_reshape_precondition.1 sampleImage
     (by show (List.replicate 784 (0 : Int)).length = 784; rw [List.length_replicate]),
   C9_reshape_precondition.2 badImage sampleRun (by decide)⟩

/-- Claim C10: output node name consistency. The value of the output node
names flag of the freeze command shown in the notebook equals the node name
positional argument of the conversion call, both being fc2/add. -/
theorem C10_node_name_consistency :
    flagValue outputNodeFlag freezeGraphArgs = some "fc2/add" ∧
    convNodeNameArg conversionCall = some "fc2/add" ∧
    flagValue outputNodeFlag freezeGraphArgs = convNodeNameArg conversionCall := by
  refine ⟨by decide, rfl, by decide⟩

end NbModel
